import Mathlib

/-
  Shallow embedding of the jobs plugin core (plugins/jobs/plugin.go):
  the pipeline/driver registry, the push/declare/destroy/pause/resume
  lifecycle operations, the initial serve walk, and the poller loop body.
  Broker drivers are external collaborators and appear only through their
  capability interface (Register/Run/Stop/Pause/Resume/Push), modelled as
  result oracles carried by a Consumer value.
-/

namespace JobsPlugin

/-- A pipeline descriptor: name (unique key), driver-type name, default
priority inherited by jobs that carry priority 0. -/
structure Pipeline where
  name : String
  driver : String
  priority : Int
  deriving DecidableEq, Repr

/-- Options attached to a job: the target pipeline name, the priority
(0 meaning inherit from the pipeline), and the remaining driver-specific
options, opaque to the registry. -/
structure JobOptions where
  pipeline : String
  priority : Int
  rest : String
  deriving DecidableEq, Repr

/-- A unit of work. Only the options are inspected by the registry; ident
and body stand for the fields the registry never touches. -/
structure Job where
  ident : String
  body : String
  options : JobOptions
  deriving DecidableEq, Repr

/-- A live driver instance bound to one pipeline, seen through its
capability interface. Each method is an oracle giving the error the
driver would return (none meaning success). -/
structure Consumer where
  pushRes : Job → Option String
  registerRes : Pipeline → Option String
  runRes : Pipeline → Option String
  stopRes : Option String

/-- A driver constructor registered under a driver-type name:
JobsConstruct builds from a config key (initial serve walk),
FromPipeline builds from a pipeline value (runtime Declare). -/
structure Constructor where
  jobsConstruct : String → Except String Consumer
  fromPipeline : Pipeline → Except String Consumer

/-- Errors produced by the registry operations. -/
inductive JError
  | noSuchPipeline (requested : String)
  | consumerNotRegistered (driver : String)
  | noDriverAssociated (pipeName : String)
  | constructFailed (msg : String)
  | registerFailed (driver : String) (pipeName : String)
  | runFailed (msg : String)
  | pushFailed (msg : String)
  | stopFailed (msg : String)
  deriving DecidableEq, Repr

/-- Lookup in a string-keyed association list (the concurrent maps of the
plugin, observed single-threaded). -/
def mapLookup {α : Type} : List (String × α) → String → Option α
  | [], _ => none
  | (k, v) :: rest, key => if k = key then some v else mapLookup rest key

/-- Delete a key (sync.Map Delete / Go map delete). -/
def mapErase {α : Type} : List (String × α) → String → List (String × α)
  | [], _ => []
  | (k, v) :: rest, key =>
    if k = key then mapErase rest key else (k, v) :: mapErase rest key

/-- Store a key, overwriting any previous binding (sync.Map Store / Go map
assignment). -/
def mapStore {α : Type} (m : List (String × α)) (key : String) (v : α) :
    List (String × α) :=
  (key, v) :: mapErase m key

/-- The plugin state: driver constructors keyed by driver-type name, live
consumers keyed by pipeline name, the pipeline registry keyed by pipeline
name, the initial consume set, plus the observable effects at the driver
boundary: the driver Push invocations made so far and the priority-queue
contents fed by accepting drivers. -/
structure PluginState where
  jobConstructors : List (String × Constructor)
  consumers : List (String × Consumer)
  pipelines : List (String × Pipeline)
  consume : List String
  driverPushes : List (String × Job)
  queue : List Job

/-- Plugin.Push: resolve the pipeline, resolve the live consumer, inherit
the pipeline priority when the job carries priority 0, then delegate to
the driver Push. Returns the state, the caller's job as it stands after
the call (the Go code mutates it through the pointer), and the error. -/
def Push (s : PluginState) (j : Job) : PluginState × Job × Option JError :=
  match mapLookup s.pipelines j.options.pipeline with
  | none => (s, j, some (.noSuchPipeline j.options.pipeline))
  | some ppl =>
    match mapLookup s.consumers ppl.name with
    | none => (s, j, some (.consumerNotRegistered ppl.driver))
    | some d =>
      let jAdj :=
        if j.options.priority = 0 then
          { j with options := { j.options with priority := ppl.priority } }
        else j
      match d.pushRes jAdj with
      | some msg =>
        ({ s with driverPushes := s.driverPushes ++ [(ppl.name, jAdj)] },
         jAdj, some (.pushFailed msg))
      | none =>
        ({ s with driverPushes := s.driverPushes ++ [(ppl.name, jAdj)],
                  queue := s.queue ++ [jAdj] },
         jAdj, none)

/-- Plugin.PushBatch: the same per-job steps as Push, applied strictly in
input order, returning at the first error. The returned job list is the
caller's slice after the call: processed jobs updated in place, the rest
untouched. -/
def PushBatch (s : PluginState) : List Job → PluginState × List Job × Option JError
  | [] => (s, [], none)
  | j :: rest =>
    let r := Push s j
    match r.2.2 with
    | some e => (r.1, r.2.1 :: rest, some e)
    | none =>
      let r2 := PushBatch r.1 rest
      (r2.1, r.2.1 :: r2.2.1, r2.2.2)

/-- Plugin.Declare: reject an empty driver name; when a constructor is
registered for the driver type, build the consumer, store it, Register,
optionally Run; each failure returns at once (the consumer store is not
rolled back). The pipeline itself is stored only on reaching the end of
the function, which also happens when no constructor is registered. -/
def Declare (s : PluginState) (ppl : Pipeline) : PluginState × Option JError :=
  if ppl.driver = "" then (s, some (.noDriverAssociated ppl.name))
  else
    match mapLookup s.jobConstructors ppl.driver with
    | none => ({ s with pipelines := mapStore s.pipelines ppl.name ppl }, none)
    | some c =>
      match c.fromPipeline ppl with
      | .error msg => (s, some (.constructFailed msg))
      | .ok d =>
        let s1 := { s with consumers := mapStore s.consumers ppl.name d }
        match d.registerRes ppl with
        | some _ => (s1, some (.registerFailed ppl.driver ppl.name))
        | none =>
          if s1.consume.contains ppl.name then
            match d.runRes ppl with
            | some msg => (s1, some (.runFailed msg))
            | none =>
              ({ s1 with pipelines := mapStore s1.pipelines ppl.name ppl }, none)
          else
            ({ s1 with pipelines := mapStore s1.pipelines ppl.name ppl }, none)

/-- Plugin.Destroy: fail when the pipeline is unknown or has no live
consumer; otherwise delete the consumer entry and the pipeline entry and
return the driver Stop result, with no rollback of the deletions. -/
def Destroy (s : PluginState) (pp : String) : PluginState × Option JError :=
  match mapLookup s.pipelines pp with
  | none => (s, some (.noSuchPipeline pp))
  | some ppl =>
    match mapLookup s.consumers ppl.name with
    | none => (s, some (.consumerNotRegistered ppl.driver))
    | some d =>
      let s1 := { s with consumers := mapErase s.consumers ppl.name,
                         pipelines := mapErase s.pipelines pp }
      (s1, match d.stopRes with | none => none | some m => some (.stopFailed m))

/-- Plugin.List: the currently registered pipeline names. -/
def listPipelines (s : PluginState) : List String :=
  s.pipelines.map (fun kv => kv.1)

/-- Observable outcome of one Plugin.Pause or Plugin.Resume call: the
failure log lines, the pipeline names for which the driver toggle was
actually invoked, whether the loop panicked (the nil-interface type
assertion reached after a failed pipeline lookup), and whether the loop
walked the whole input list. -/
structure ToggleRun where
  logs : List String
  calls : List String
  panicked : Bool
  completed : Bool
  deriving DecidableEq, Repr

/-- Plugin.Pause, line by line: a failed pipeline lookup logs an error but
the code then performs the type assertion on the nil interface value,
which panics; a failed consumer lookup logs a warning and returns from
the whole function; otherwise the driver Pause is invoked and the loop
moves to the next name. -/
def pauseLoop (s : PluginState) : List String → ToggleRun
  | [] => { logs := [], calls := [], panicked := false, completed := true }
  | n :: rest =>
    match mapLookup s.pipelines n with
    | none =>
      { logs := ["no such pipeline, requested: " ++ n], calls := [],
        panicked := true, completed := false }
    | some ppl =>
      match mapLookup s.consumers ppl.name with
      | none =>
        { logs := ["driver for the pipeline not found: " ++ n], calls := [],
          panicked := false, completed := false }
      | some _ =>
        let r := pauseLoop s rest
        { r with calls := ppl.name :: r.calls }

/-- Plugin.Resume, identical in structure to Plugin.Pause. -/
def resumeLoop (s : PluginState) : List String → ToggleRun
  | [] => { logs := [], calls := [], panicked := false, completed := true }
  | n :: rest =>
    match mapLookup s.pipelines n with
    | none =>
      { logs := ["no such pipeline, requested: " ++ n], calls := [],
        panicked := true, completed := false }
    | some ppl =>
      match mapLookup s.consumers ppl.name with
      | none =>
        { logs := ["driver for the pipeline not found: " ++ n], calls := [],
          panicked := false, completed := false }
      | some _ =>
        let r := resumeLoop s rest
        { r with calls := ppl.name :: r.calls }

/-- Events pushed onto the event bus during the initial serve walk. -/
inductive ServeEvent
  | pipeRun (pipeName : String) (driver : String)
  | driverReady (pipeName : String) (driver : String)
  deriving DecidableEq, Repr

/-- The pipeline walk at the start of Plugin.Serve, over the registry
entries in the order the Range visits them. For each entry: when a
constructor is registered for the driver type, construct from the config
key, store the consumer under the map key, Register, and Run it when the
name is in the consume set; the first failing step stops the walk and its
error is the one sent to the serve error channel. An entry with no
registered constructor only emits a driver-ready event. -/
def serveWalk (s : PluginState) :
    List (String × Pipeline) → PluginState × List ServeEvent × Option JError
  | [] => (s, [], none)
  | (name, pipe) :: rest =>
    match mapLookup s.jobConstructors pipe.driver with
    | none =>
      let r := serveWalk s rest
      (r.1, .driverReady pipe.name pipe.driver :: r.2.1, r.2.2)
    | some c =>
      match c.jobsConstruct ("jobs.pipelines." ++ name) with
      | .error msg => (s, [], some (.constructFailed msg))
      | .ok d =>
        let s1 := { s with consumers := mapStore s.consumers name d }
        match d.registerRes pipe with
        | some _ => (s1, [], some (.registerFailed pipe.driver pipe.name))
        | none =>
          if s1.consume.contains name then
            match d.runRes pipe with
            | some msg => (s1, [], some (.runFailed msg))
            | none =>
              let r := serveWalk s1 rest
              (r.1, .pipeRun pipe.name pipe.driver :: r.2.1, r.2.2)
          else
            serveWalk s1 rest

/-- An item extracted from the priority queue by a poller, seen through
the job interface the loop uses: Context() either yields serialized
metadata or fails, Body() is the payload, Ack/Nack may themselves fail. -/
structure QueueItem where
  contextRes : Except String String
  body : String
  ackRes : Option String
  nackRes : Option String
  deriving Repr

/-- Which acknowledgement a poller issued for an extracted item. -/
inductive Acknowledged
  | ack
  | nack
  deriving DecidableEq, Repr

/-- Observable outcome of handling one extracted item inside the poller
loop: the acknowledgement calls attempted in order, the error log lines,
and whether the handling terminates the loop. -/
structure PollStep where
  acks : List Acknowledged
  logs : List String
  terminates : Bool
  deriving DecidableEq, Repr

/-- The body of one poller-loop iteration after ExtractMin, line by line:
a Context failure Nacks (logging a Nack failure) and continues; an
executor failure Nacks (logging a Nack failure) and continues; executor
success Acks, logging an Ack failure. Nothing in the body returns. -/
def pollIteration (execRes : String → String → Option String) (item : QueueItem) :
    PollStep :=
  match item.contextRes with
  | .error _ =>
    { acks := [.nack]
      logs := (if item.nackRes.isSome then ["negatively acknowledge failed"] else [])
        ++ ["job marshal context"]
      terminates := false }
  | .ok ctx =>
    match execRes ctx item.body with
    | some _ =>
      { acks := [.nack]
        logs := (if item.nackRes.isSome then ["negatively acknowledge failed"] else [])
          ++ ["job execute"]
        terminates := false }
    | none =>
      { acks := [.ack]
        logs := if item.ackRes.isSome then ["acknowledge failed"] else []
        terminates := false }

/-- A runtime registry operation: Declare a pipeline or Destroy a name. -/
inductive RegistryOp
  | declareOp (ppl : Pipeline)
  | destroyOp (name : String)

/-- Apply one registry operation. -/
def applyRegistryOp (s : PluginState) (o : RegistryOp) : PluginState × Option JError :=
  match o with
  | .declareOp ppl => Declare s ppl
  | .destroyOp n => Destroy s n

/-- Run a sequence of registry operations, threading the state. -/
def runRegistryOps (s : PluginState) : List RegistryOp → PluginState
  | [] => s
  | o :: rest => runRegistryOps (applyRegistryOp s o).1 rest

/-- Every Declare in the sequence succeeds at the state where it runs. -/
def declaresOk (s : PluginState) : List RegistryOp → Prop
  | [] => True
  | .declareOp ppl :: rest =>
    (Declare s ppl).2 = none ∧ declaresOk (Declare s ppl).1 rest
  | .destroyOp n :: rest => declaresOk (Destroy s n).1 rest

/-- Every pipeline registry entry is stored under the pipeline's name. -/
def keyedByName (s : PluginState) : Prop :=
  ∀ k ppl, mapLookup s.pipelines k = some ppl → ppl.name = k

/-- A live consumer exists for a name only while that name is present in
the pipeline registry. -/
def consumersCovered (s : PluginState) : Prop :=
  ∀ n, (mapLookup s.consumers n).isSome = true →
    (mapLookup s.pipelines n).isSome = true

theorem lookup_erase_self {α : Type} (m : List (String × α)) (k : String) :
    mapLookup (mapErase m k) k = none := by
  induction m with
  | nil => rfl
  | cons hd tl ih =>
    obtain ⟨k1, v1⟩ := hd
    by_cases h : k1 = k
    · simp [mapErase, h, ih]
    · simp [mapErase, mapLookup, h, ih]

theorem lookup_erase_ne {α : Type} (m : List (String × α)) (k k' : String)
    (h : k' ≠ k) : mapLookup (mapErase m k) k' = mapLookup m k' := by
  induction m with
  | nil => rfl
  | cons hd tl ih =>
    obtain ⟨k1, v1⟩ := hd
    by_cases h1 : k1 = k
    · subst h1
      simp [mapErase, mapLookup, Ne.symm h, ih]
    · simp only [mapErase, if_neg h1, mapLookup]
      by_cases h2 : k1 = k'
      · simp [h2]
      · simp [h2, ih]

theorem lookup_store_self {α : Type} (m : List (String × α)) (k : String)
    (v : α) : mapLookup (mapStore m k v) k = some v := by
  simp [mapStore, mapLookup]

theorem lookup_store_ne {α : Type} (m : List (String × α)) (k k' : String)
    (v : α) (h : k' ≠ k) :
    mapLookup (mapStore m k v) k' = mapLookup m k' := by
  simp only [mapStore, mapLookup, if_neg (Ne.symm h)]
  exact lookup_erase_ne m k k' h

/- Concrete fixtures used by counterexamples and witnesses. -/

/-- A driver whose every capability succeeds. -/
def okConsumer : Consumer :=
  { pushRes := fun _ => none, registerRes := fun _ => none,
    runRes := fun _ => none, stopRes := none }

/-- A driver whose Register step fails. -/
def regFailConsumer : Consumer :=
  { pushRes := fun _ => none, registerRes := fun _ => some "register boom",
    runRes := fun _ => none, stopRes := none }

/-- A constructor producing the all-succeeding driver. -/
def okCtor : Constructor :=
  { jobsConstruct := fun _ => .ok okConsumer,
    fromPipeline := fun _ => .ok okConsumer }

/-- A constructor producing the driver whose Register fails. -/
def regFailCtor : Constructor :=
  { jobsConstruct := fun _ => .ok regFailConsumer,
    fromPipeline := fun _ => .ok regFailConsumer }

/-- A constructor that itself fails. -/
def ctorFailCtor : Constructor :=
  { jobsConstruct := fun _ => .error "construct boom",
    fromPipeline := fun _ => .error "construct boom" }

def emptyState : PluginState :=
  { jobConstructors := [], consumers := [], pipelines := [], consume := [],
    driverPushes := [], queue := [] }

def pplMem : Pipeline := { name := "p1", driver := "mem", priority := 10 }

def pplTwo : Pipeline := { name := "p2", driver := "mem", priority := 3 }

/-- Pipeline p1 registered with a live all-succeeding driver. -/
def liveState : PluginState :=
  { emptyState with jobConstructors := [("mem", okCtor)],
                    consumers := [("p1", okConsumer)],
                    pipelines := [("p1", pplMem)] }

/-- Pipeline p1 registered with no live driver. -/
def noDriverState : PluginState :=
  { emptyState with pipelines := [("p1", pplMem)] }

/-- Pipelines p2 (no live driver) and p1 (live driver). -/
def noConsState : PluginState :=
  { emptyState with pipelines := [("p2", pplTwo), ("p1", pplMem)],
                    consumers := [("p1", okConsumer)] }

/-- Only the Register-failing constructor is registered. -/
def regFailState : PluginState :=
  { emptyState with jobConstructors := [("mem", regFailCtor)] }

/-- Only the failing constructor is registered. -/
def ctorFailState : PluginState :=
  { emptyState with jobConstructors := [("mem", ctorFailCtor)] }

/-- Only the all-succeeding constructor is registered. -/
def okCtorState : PluginState :=
  { emptyState with jobConstructors := [("mem", okCtor)] }

def jobOk : Job :=
  { ident := "A", body := "bodyA",
    options := { pipeline := "p1", priority := 0, rest := "optsA" } }

def jobBad : Job :=
  { ident := "B", body := "bodyB",
    options := { pipeline := "missing", priority := 0, rest := "optsB" } }

def jobOk2 : Job :=
  { ident := "C", body := "bodyC",
    options := { pipeline := "p1", priority := 2, rest := "optsC" } }

/-- A queue item whose Context() call fails. -/
def itemCtxFail : QueueItem :=
  { contextRes := .error "marshal boom", body := "b1",
    ackRes := none, nackRes := none }

/-- A queue item whose Context() call succeeds. -/
def itemPlain : QueueItem :=
  { contextRes := .ok "ctx1", body := "b2", ackRes := none, nackRes := none }

/-- Claim C7: Push on a pipeline name absent from the registry returns the
no-such-pipeline error with the state (hence the priority queue and the
record of driver Push calls) and the job completely unchanged; Push on a
known pipeline with no live consumer returns the consumer-not-registered
error, likewise leaving state and job untouched. -/
theorem c7_push_lookup_failures (s : PluginState) (j : Job) :
    (mapLookup s.pipelines j.options.pipeline = none →
      Push s j = (s, j, some (.noSuchPipeline j.options.pipeline))) ∧
    (∀ ppl, mapLookup s.pipelines j.options.pipeline = some ppl →
      mapLookup s.consumers ppl.name = none →
      Push s j = (s, j, some (.consumerNotRegistered ppl.driver))) := by
  constructor
  · intro h
    simp [Push, h]
  · intro ppl h1 h2
    simp [Push, h1, h2]

theorem c7_push_lookup_failures_witness :
    Push liveState jobBad = (liveState, jobBad, some (.noSuchPipeline "missing")) ∧
    Push noDriverState jobOk =
      (noDriverState, jobOk, some (.consumerNotRegistered "mem")) :=
  ⟨(c7_push_lookup_failures liveState jobBad).1 (by decide),
   (c7_push_lookup_failures noDriverState jobOk).2 pplMem (by decide) rfl⟩

/-- Claim C6: Destroy of an unknown name fails with the no-such-pipeline
error and Destroy of a pipeline with no live consumer fails with the
consumer-not-registered error, both leaving the state unchanged; a
successful Destroy removes both the pipeline and the consumer entry and
returns the driver Stop result without rolling the removals back, so a
second Destroy of the same name fails with no-such-pipeline and a
subsequent Push to that pipeline fails with no-such-pipeline. -/
theorem c6_destroy_semantics (s : PluginState) (pp : String) :
    (mapLookup s.pipelines pp = none →
      Destroy s pp = (s, some (.noSuchPipeline pp))) ∧
    (∀ ppl, mapLookup s.pipelines pp = some ppl →
      mapLookup s.consumers ppl.name = none →
      Destroy s pp = (s, some (.consumerNotRegistered ppl.driver))) ∧
    (∀ ppl d, mapLookup s.pipelines pp = some ppl →
      mapLookup s.consumers ppl.name = some d →
      mapLookup (Destroy s pp).1.pipelines pp = none ∧
      mapLookup (Destroy s pp).1.consumers ppl.name = none ∧
      (Destroy s pp).2 = (match d.stopRes with
        | none => none
        | some m => some (.stopFailed m)) ∧
      (Destroy (Destroy s pp).1 pp).2 = some (.noSuchPipeline pp) ∧
      (∀ j : Job, j.options.pipeline = pp →
        (Push (Destroy s pp).1 j).2.2 = some (.noSuchPipeline pp))) := by
  refine ⟨?_, ?_, ?_⟩
  · intro h
    simp [Destroy, h]
  · intro ppl h1 h2
    simp [Destroy, h1, h2]
  · intro ppl d h1 h2
    have hD : (Destroy s pp).1 =
        { s with consumers := mapErase s.consumers ppl.name,
                 pipelines := mapErase s.pipelines pp } := by
      simp [Destroy, h1, h2]
    refine ⟨?_, ?_, ?_, ?_, ?_⟩
    · rw [hD]
      exact lookup_erase_self s.pipelines pp
    · rw [hD]
      exact lookup_erase_self s.consumers ppl.name
    · simp [Destroy, h1, h2]
    · rw [hD]
      simp [Destroy, lookup_erase_self]
    · intro j hj
      rw [hD]
      simp [Push, hj, lookup_erase_self]

theorem c6_destroy_semantics_witness :
    mapLookup (Destroy liveState "p1").1.pipelines "p1" = none ∧
    mapLookup (Destroy liveState "p1").1.consumers "p1" = none ∧
    (Destroy liveState "p1").2 = none ∧
    (Destroy (Destroy liveState "p1").1 "p1").2 = some (.noSuchPipeline "p1") ∧
    (Push (Destroy liveState "p1").1 jobOk).2.2 = some (.noSuchPipeline "p1") ∧
    Destroy emptyState "ghost" = (emptyState, some (.noSuchPipeline "ghost")) ∧
    Destroy noDriverState "p1" =
      (noDriverState, some (.consumerNotRegistered "mem")) := by
  obtain ⟨ha, hb, hc, hd, he⟩ :=
    (c6_destroy_semantics liveState "p1").2.2 pplMem okConsumer (by decide) rfl
  exact ⟨ha, hb, hc, hd, he jobOk rfl,
    (c6_destroy_semantics emptyState "ghost").1 rfl,
    (c6_destroy_semantics noDriverState "p1").2.1 pplMem (by decide) rfl⟩

/-- Claim C1 counterexample: Declare on a pipeline whose driver type has
no registered constructor does NOT fail and does NOT leave the pipeline
out of the registry: it returns success, the pipeline shows up in List(),
and only the consumer entry is missing. -/
theorem c1_declare_unregistered_counterexample :
    (Declare emptyState pplMem).2 = none ∧
    listPipelines (Declare emptyState pplMem).1 = ["p1"] ∧
    (Declare emptyState pplMem).1.consumers = [] :=
  ⟨by decide, by decide, rfl⟩

/-- Claim C1 (amended): Declare on a pipeline whose driver-type name is
non-empty but has no registered constructor creates no consumer entry,
stores the pipeline (so it is present in List()), and returns success. -/
theorem c1_declare_unregistered_driver (s : PluginState) (ppl : Pipeline)
    (hdr : ppl.driver ≠ "")
    (hc : mapLookup s.jobConstructors ppl.driver = none) :
    Declare s ppl =
      ({ s with pipelines := mapStore s.pipelines ppl.name ppl }, none) ∧
    (Declare s ppl).1.consumers = s.consumers ∧
    ppl.name ∈ listPipelines (Declare s ppl).1 := by
  have hD : Declare s ppl =
      ({ s with pipelines := mapStore s.pipelines ppl.name ppl }, none) := by
    simp [Declare, hdr, hc]
  refine ⟨hD, ?_, ?_⟩
  · rw [hD]
  · rw [hD]
    simp [listPipelines, mapStore]

theorem c1_declare_unregistered_driver_witness :
    Declare emptyState pplMem =
      ({ emptyState with
          pipelines := mapStore emptyState.pipelines "p1" pplMem }, none) ∧
    (Declare emptyState pplMem).1.consumers = emptyState.consumers ∧
    "p1" ∈ listPipelines (Declare emptyState pplMem).1 :=
  c1_declare_unregistered_driver emptyState pplMem (by decide) rfl

theorem push_pushes_extend (s : PluginState) (j : Job) :
    ∃ t, (Push s j).1.driverPushes = s.driverPushes ++ t := by
  cases h1 : mapLookup s.pipelines j.options.pipeline with
  | none => exact ⟨[], by simp [Push, h1]⟩
  | some ppl =>
    cases h2 : mapLookup s.consumers ppl.name with
    | none => exact ⟨[], by simp [Push, h1, h2]⟩
    | some d =>
      refine ⟨[(ppl.name, if j.options.priority = 0 then
        { j with options := { j.options with priority := ppl.priority } }
        else j)], ?_⟩
      simp only [Push, h1, h2]
      cases h3 : d.pushRes (if j.options.priority = 0 then
        { j with options := { j.options with priority := ppl.priority } }
        else j) <;> simp [h3]

theorem pushBatch_pushes_extend (l : List Job) :
    ∀ s : PluginState, ∃ t, (PushBatch s l).1.driverPushes = s.driverPushes ++ t := by
  induction l with
  | nil => exact fun s => ⟨[], by simp [PushBatch]⟩
  | cons j rest ih =>
    intro s
    obtain ⟨t1, h1⟩ := push_pushes_extend s j
    cases h : (Push s j).2.2 with
    | some e => exact ⟨t1, by simp [PushBatch, h, h1]⟩
    | none =>
      obtain ⟨t2, h2⟩ := ih (Push s j).1
      exact ⟨t1 ++ t2, by simp [PushBatch, h, h2, h1]⟩

theorem push_live (s : PluginState) (j : Job) (ppl : Pipeline) (d : Consumer)
    (h1 : mapLookup s.pipelines j.options.pipeline = some ppl)
    (h2 : mapLookup s.consumers ppl.name = some d) :
    (Push s j).2.1 = (if j.options.priority = 0 then
      { j with options := { j.options with priority := ppl.priority } }
      else j) ∧
    (Push s j).1.driverPushes = s.driverPushes ++ [(ppl.name, (Push s j).2.1)] := by
  simp only [Push, h1, h2]
  cases h3 : d.pushRes (if j.options.priority = 0 then
    { j with options := { j.options with priority := ppl.priority } }
    else j) <;> simp [h3]

/-- Claim C4: for a job pushed via Push (or as the head of a PushBatch) to
a known pipeline with a live driver, a job with priority 0 is handed to
the driver Push carrying the pipeline priority, and a job with non-zero
priority is handed over unchanged. -/
theorem c4_priority_inheritance (s : PluginState) (j : Job) (ppl : Pipeline)
    (d : Consumer)
    (h1 : mapLookup s.pipelines j.options.pipeline = some ppl)
    (h2 : mapLookup s.consumers ppl.name = some d) :
    (j.options.priority = 0 →
      (Push s j).2.1.options.priority = ppl.priority ∧
      (Push s j).1.driverPushes = s.driverPushes ++
        [(ppl.name, { j with options := { j.options with priority := ppl.priority } })]) ∧
    (j.options.priority ≠ 0 →
      (Push s j).2.1 = j ∧
      (Push s j).1.driverPushes = s.driverPushes ++ [(ppl.name, j)]) ∧
    (∀ rest, ∃ t, (PushBatch s (j :: rest)).1.driverPushes =
      s.driverPushes ++ ((ppl.name, (Push s j).2.1) :: t)) := by
  obtain ⟨hj, hp⟩ := push_live s j ppl d h1 h2
  refine ⟨?_, ?_, ?_⟩
  · intro h0
    rw [if_pos h0] at hj
    refine ⟨by rw [hj], ?_⟩
    rw [hp, hj]
  · intro h0
    rw [if_neg h0] at hj
    exact ⟨hj, by rw [hp, hj]⟩
  · intro rest
    cases h : (Push s j).2.2 with
    | some e =>
      refine ⟨[], ?_⟩
      have : (PushBatch s (j :: rest)).1 = (Push s j).1 := by
        simp [PushBatch, h]
      rw [this, hp]
    | none =>
      obtain ⟨t2, h2'⟩ := pushBatch_pushes_extend rest (Push s j).1
      refine ⟨t2, ?_⟩
      have : (PushBatch s (j :: rest)).1 = (PushBatch (Push s j).1 rest).1 := by
        simp [PushBatch, h]
      rw [this, h2', hp]
      simp

theorem c4_priority_inheritance_witness :
    ((Push liveState jobOk).2.1.options.priority = 10 ∧
      (Push liveState jobOk).1.driverPushes = liveState.driverPushes ++
        [("p1", { jobOk with
          options := { jobOk.options with priority := 10 } })]) ∧
    ((Push liveState jobOk2).2.1 = jobOk2 ∧
      (Push liveState jobOk2).1.driverPushes =
        liveState.driverPushes ++ [("p1", jobOk2)]) :=
  ⟨(c4_priority_inheritance liveState jobOk pplMem okConsumer
      (by decide) rfl).1 (by decide),
   (c4_priority_inheritance liveState jobOk2 pplMem okConsumer
      (by decide) rfl).2.1 (by decide)⟩

/-- Claim C5: PushBatch handles the jobs strictly in input order: a head
job that pushes cleanly is followed by the batch on the remaining jobs
from the updated state (earlier pushes kept, no rollback), and a head job
that fails stops the batch at once, returning that error with the
remaining jobs untouched. -/
theorem c5_pushbatch_first_failure (s : PluginState) (j : Job)
    (rest : List Job) :
    ((Push s j).2.2 = none →
      PushBatch s (j :: rest) =
        ((PushBatch (Push s j).1 rest).1,
         (Push s j).2.1 :: (PushBatch (Push s j).1 rest).2.1,
         (PushBatch (Push s j).1 rest).2.2)) ∧
    (∀ e, (Push s j).2.2 = some e →
      PushBatch s (j :: rest) = ((Push s j).1, (Push s j).2.1 :: rest, some e)) ∧
    PushBatch s ([] : List Job) = (s, [], none) := by
  refine ⟨?_, ?_, rfl⟩
  · intro h
    simp [PushBatch, h]
  · intro e h
    simp [PushBatch, h]

theorem c5_pushbatch_first_failure_witness :
    PushBatch liveState [jobOk, jobBad, jobOk2] =
      ((PushBatch (Push liveState jobOk).1 [jobBad, jobOk2]).1,
       (Push liveState jobOk).2.1 ::
         (PushBatch (Push liveState jobOk).1 [jobBad, jobOk2]).2.1,
       (PushBatch (Push liveState jobOk).1 [jobBad, jobOk2]).2.2) ∧
    (PushBatch liveState [jobOk, jobBad, jobOk2]).2.2 =
      some (.noSuchPipeline "missing") ∧
    (PushBatch liveState [jobOk, jobBad, jobOk2]).1.queue =
      [{ jobOk with options := { jobOk.options with priority := 10 } }] ∧
    (PushBatch liveState [jobOk, jobBad, jobOk2]).2.1 =
      [{ jobOk with options := { jobOk.options with priority := 10 } },
       jobBad, jobOk2] :=
  ⟨(c5_pushbatch_first_failure liveState jobOk [jobBad, jobOk2]).1 (by decide),
   by decide, by decide, by decide⟩

/-- Claim C10: Push hands the caller back the very job object it mutated:
when the job carried priority 0 and the pipeline has a live driver, the
pipeline priority is written into the job's own priority option; a job
with non-zero priority comes back identical; all remaining fields (ident,
body, pipeline option, driver-specific options) are untouched; PushBatch
treats its head job the same way. -/
theorem c10_push_mutates_in_place (s : PluginState) (j : Job)
    (ppl : Pipeline) (d : Consumer)
    (h1 : mapLookup s.pipelines j.options.pipeline = some ppl)
    (h2 : mapLookup s.consumers ppl.name = some d) :
    (j.options.priority = 0 →
      (Push s j).2.1.options.priority = ppl.priority) ∧
    (j.options.priority ≠ 0 → (Push s j).2.1 = j) ∧
    (Push s j).2.1.ident = j.ident ∧
    (Push s j).2.1.body = j.body ∧
    (Push s j).2.1.options.pipeline = j.options.pipeline ∧
    (Push s j).2.1.options.rest = j.options.rest ∧
    (∀ rest, (PushBatch s (j :: rest)).2.1.head? = some (Push s j).2.1) := by
  obtain ⟨hj, _⟩ := push_live s j ppl d h1 h2
  have hhead : ∀ rest : List Job,
      (PushBatch s (j :: rest)).2.1.head? = some (Push s j).2.1 := by
    intro rest
    cases h : (Push s j).2.2 with
    | some e => simp [PushBatch, h]
    | none => simp [PushBatch, h]
  by_cases h0 : j.options.priority = 0
  · rw [if_pos h0] at hj
    exact ⟨fun _ => by rw [hj], fun hne => absurd h0 hne,
      by rw [hj], by rw [hj], by rw [hj], by rw [hj], hhead⟩
  · rw [if_neg h0] at hj
    exact ⟨fun he => absurd he h0, fun _ => hj,
      by rw [hj], by rw [hj], by rw [hj], by rw [hj], hhead⟩

theorem c10_push_mutates_in_place_witness :
    (Push liveState jobOk).2.1.options.priority = 10 ∧
    (Push liveState jobOk2).2.1 = jobOk2 ∧
    (Push liveState jobOk).2.1.ident = "A" ∧
    (Push liveState jobOk).2.1.body = "bodyA" ∧
    (Push liveState jobOk).2.1.options.pipeline = "p1" ∧
    (Push liveState jobOk).2.1.options.rest = "optsA" ∧
    (PushBatch liveState [jobOk, jobOk2]).2.1.head? =
      some (Push liveState jobOk).2.1 := by
  obtain ⟨hz, _, hid, hb, hpi, hr, hh⟩ :=
    c10_push_mutates_in_place liveState jobOk pplMem okConsumer (by decide) rfl
  obtain ⟨_, hnz, _⟩ :=
    c10_push_mutates_in_place liveState jobOk2 pplMem okConsumer (by decide) rfl
  exact ⟨hz (by decide), hnz (by decide), hid, hb, hpi, hr, hh [jobOk2]⟩

/-- Claim C2: the code diverges from the claim. A failed pipeline lookup
in Pause/Resume logs but then panics on the nil-interface type assertion
(the failure escapes the call and the remaining names are never
processed), and a failed live-driver lookup returns from the whole
function, aborting the rest of the batch: with p1 live, Pause/Resume on
names whose first entry fails never reach the driver toggle for p1. -/
theorem c2_pause_resume_divergence :
    (pauseLoop liveState ["missing", "p1"]).panicked = true ∧
    (pauseLoop liveState ["missing", "p1"]).calls = [] ∧
    (pauseLoop noConsState ["p2", "p1"]).panicked = false ∧
    (pauseLoop noConsState ["p2", "p1"]).completed = false ∧
    (pauseLoop noConsState ["p2", "p1"]).calls = [] ∧
    (pauseLoop noConsState ["p1"]).calls = ["p1"] ∧
    (resumeLoop liveState ["missing", "p1"]).panicked = true ∧
    (resumeLoop liveState ["missing", "p1"]).calls = [] ∧
    (resumeLoop noConsState ["p2", "p1"]).completed = false ∧
    (resumeLoop noConsState ["p2", "p1"]).calls = [] := by
  decide

/-- Claim C3 counterexample: a Declare whose driver Register step fails
leaves behind a consumer entry for the pipeline name without a matching
pipeline entry: the consumer is stored before Register is called and is
not removed when Register fails. -/
theorem c3_orphan_consumer_counterexample :
    (Declare regFailState pplMem).2 =
      some (.registerFailed "mem" "p1") ∧
    (mapLookup (Declare regFailState pplMem).1.consumers "p1").isSome = true ∧
    mapLookup (Declare regFailState pplMem).1.pipelines "p1" = none :=
  ⟨by decide, by decide, by decide⟩

theorem declare_ok_preserves (s : PluginState) (ppl : Pipeline)
    (hk : keyedByName s) (hc : consumersCovered s)
    (h : (Declare s ppl).2 = none) :
    keyedByName (Declare s ppl).1 ∧ consumersCovered (Declare s ppl).1 := by
  by_cases hdr : ppl.driver = ""
  · simp [Declare, hdr] at h
  · cases hcons : mapLookup s.jobConstructors ppl.driver with
    | none =>
      have hD : (Declare s ppl).1 =
          { s with pipelines := mapStore s.pipelines ppl.name ppl } := by
        simp [Declare, hdr, hcons]
      rw [hD]
      constructor
      · intro k q hq
        by_cases hkk : k = ppl.name
        · subst hkk
          rw [lookup_store_self] at hq
          cases hq
          rfl
        · rw [lookup_store_ne _ _ _ _ hkk] at hq
          exact hk k q hq
      · intro n hn
        by_cases hnn : n = ppl.name
        · subst hnn
          simp [lookup_store_self]
        · rw [lookup_store_ne _ _ _ _ hnn]
          exact hc n hn
    | some c =>
      cases hfp : c.fromPipeline ppl with
      | error msg => simp [Declare, hdr, hcons, hfp] at h
      | ok d =>
        cases hreg : d.registerRes ppl with
        | some m => simp [Declare, hdr, hcons, hfp, hreg] at h
        | none =>
          have hD : (Declare s ppl).1 =
              { s with consumers := mapStore s.consumers ppl.name d,
                       pipelines := mapStore s.pipelines ppl.name ppl } := by
            by_cases hcm : ppl.name ∈ s.consume
            · cases hrun : d.runRes ppl with
              | some m => simp [Declare, hdr, hcons, hfp, hreg, hcm, hrun] at h
              | none => simp [Declare, hdr, hcons, hfp, hreg, hcm, hrun]
            · simp [Declare, hdr, hcons, hfp, hreg, hcm]
          rw [hD]
          constructor
          · intro k q hq
            by_cases hkk : k = ppl.name
            · subst hkk
              rw [lookup_store_self] at hq
              cases hq
              rfl
            · rw [lookup_store_ne _ _ _ _ hkk] at hq
              exact hk k q hq
          · intro n hn
            by_cases hnn : n = ppl.name
            · subst hnn
              simp [lookup_store_self]
            · rw [lookup_store_ne _ _ _ _ hnn] at hn ⊢
              exact hc n hn

theorem destroy_preserves (s : PluginState) (pp : String)
    (hk : keyedByName s) (hc : consumersCovered s) :
    keyedByName (Destroy s pp).1 ∧ consumersCovered (Destroy s pp).1 := by
  cases h1 : mapLookup s.pipelines pp with
  | none =>
    have hD : (Destroy s pp).1 = s := by simp [Destroy, h1]
    rw [hD]
    exact ⟨hk, hc⟩
  | some ppl =>
    cases h2 : mapLookup s.consumers ppl.name with
    | none =>
      have hD : (Destroy s pp).1 = s := by simp [Destroy, h1, h2]
      rw [hD]
      exact ⟨hk, hc⟩
    | some d =>
      have hname : ppl.name = pp := hk pp ppl h1
      have hD : (Destroy s pp).1 =
          { s with consumers := mapErase s.consumers ppl.name,
                   pipelines := mapErase s.pipelines pp } := by
        simp [Destroy, h1, h2]
      rw [hD]
      constructor
      · intro k q hq
        by_cases hkk : k = pp
        · subst hkk
          rw [lookup_erase_self] at hq
          cases hq
        · rw [lookup_erase_ne _ _ _ hkk] at hq
          exact hk k q hq
      · intro n hn
        by_cases hnn : n = ppl.name
        · subst hnn
          rw [lookup_erase_self] at hn
          cases hn
        · rw [lookup_erase_ne _ _ _ hnn] at hn
          have hpl := hc n hn
          have hnp : n ≠ pp := by
            rw [← hname]
            exact hnn
          rw [lookup_erase_ne _ _ _ hnp]
          exact hpl

/-- Claim C3 (amended): while a Declare whose Register or Run step fails
can orphan a consumer entry, the claimed invariant does hold across every
sequence of Declare and Destroy operations in which each Declare
succeeds: a live consumer is stored for a name only while that name is in
the pipeline registry, and Destroy (in any of its outcomes) never breaks
this. -/
theorem c3_consumer_pipeline_invariant (ops : List RegistryOp) :
    ∀ s : PluginState, keyedByName s → consumersCovered s →
      declaresOk s ops →
      consumersCovered (runRegistryOps s ops) ∧
      keyedByName (runRegistryOps s ops) := by
  induction ops with
  | nil => exact fun s hk hc _ => ⟨hc, hk⟩
  | cons o rest ih =>
    intro s hk hc hd
    cases o with
    | declareOp ppl =>
      obtain ⟨h1, h2⟩ := hd
      obtain ⟨hk', hc'⟩ := declare_ok_preserves s ppl hk hc h1
      exact ih (Declare s ppl).1 hk' hc' h2
    | destroyOp n =>
      obtain ⟨hk', hc'⟩ := destroy_preserves s n hk hc
      exact ih (Destroy s n).1 hk' hc' hd

theorem c3_consumer_pipeline_invariant_witness :
    consumersCovered
      (runRegistryOps okCtorState
        [.declareOp pplMem, .declareOp pplTwo, .destroyOp "p1"]) ∧
    keyedByName
      (runRegistryOps okCtorState
        [.declareOp pplMem, .declareOp pplTwo, .destroyOp "p1"]) :=
  c3_consumer_pipeline_invariant
    [.declareOp pplMem, .declareOp pplTwo, .destroyOp "p1"] okCtorState
    (by intro k q hq; exact absurd hq (by simp [okCtorState, emptyState, mapLookup]))
    (by intro n hn; exact absurd hn (by simp [okCtorState, emptyState, mapLookup]))
    ⟨by decide, by decide, trivial⟩

/-- Claim C8: for every item a poller extracts from the queue, the loop
body attempts exactly one acknowledgement and never terminates the loop:
Nack when resolving the context fails or the executor invocation fails,
Ack when the executor invocation succeeds; a failing Ack or Nack is only
logged. -/
theorem c8_poller_single_ack (execRes : String → String → Option String)
    (item : QueueItem) :
    (pollIteration execRes item).acks.length = 1 ∧
    (pollIteration execRes item).terminates = false ∧
    (∀ msg, item.contextRes = .error msg →
      (pollIteration execRes item).acks = [.nack]) ∧
    (∀ ctx msg, item.contextRes = .ok ctx → execRes ctx item.body = some msg →
      (pollIteration execRes item).acks = [.nack]) ∧
    (∀ ctx, item.contextRes = .ok ctx → execRes ctx item.body = none →
      (pollIteration execRes item).acks = [.ack]) := by
  obtain ⟨cres, b, a, n⟩ := item
  cases cres with
  | error msg => simp [pollIteration]
  | ok ctx =>
    cases hx : execRes ctx b with
    | some m => simp [pollIteration, hx]
    | none =>
      refine ⟨by simp [pollIteration, hx], by simp [pollIteration, hx],
        ?_, ?_, ?_⟩
      · intro msg hmsg
        cases hmsg
      · intro ctx1 msg h1 h2
        cases h1
        rw [hx] at h2
        cases h2
      · intro ctx1 h1 h2
        simp [pollIteration, hx]

theorem c8_poller_single_ack_witness :
    (pollIteration (fun _ _ => none) itemCtxFail).acks = [.nack] ∧
    (pollIteration (fun _ _ => some "exec boom") itemPlain).acks = [.nack] ∧
    (pollIteration (fun _ _ => none) itemPlain).acks = [.ack] ∧
    (pollIteration (fun _ _ => none) itemPlain).terminates = false :=
  ⟨(c8_poller_single_ack (fun _ _ => none) itemCtxFail).2.2.1
      "marshal boom" rfl,
   (c8_poller_single_ack (fun _ _ => some "exec boom") itemPlain).2.2.2.1
      "ctx1" "exec boom" rfl rfl,
   (c8_poller_single_ack (fun _ _ => none) itemPlain).2.2.2.2 "ctx1" rfl rfl,
   (c8_poller_single_ack (fun _ _ => none) itemPlain).2.1⟩

/-- Claim C9: in the initial pipeline walk of Serve, a pipeline whose
driver type has no registered constructor is skipped with a driver-ready
event and the walk goes on, while the first failing construction,
Register, or Run step stops the walk at once: the remaining pipelines are
not processed and that first error is the one surfaced on the serve error
channel. -/
theorem c9_serve_walk_first_error (s : PluginState) (name : String)
    (pipe : Pipeline) (rest : List (String × Pipeline)) :
    (mapLookup s.jobConstructors pipe.driver = none →
      serveWalk s ((name, pipe) :: rest) =
        ((serveWalk s rest).1,
         .driverReady pipe.name pipe.driver :: (serveWalk s rest).2.1,
         (serveWalk s rest).2.2)) ∧
    (∀ c msg, mapLookup s.jobConstructors pipe.driver = some c →
      c.jobsConstruct ("jobs.pipelines." ++ name) = .error msg →
      serveWalk s ((name, pipe) :: rest) = (s, [], some (.constructFailed msg))) ∧
    (∀ c d m, mapLookup s.jobConstructors pipe.driver = some c →
      c.jobsConstruct ("jobs.pipelines." ++ name) = .ok d →
      d.registerRes pipe = some m →
      serveWalk s ((name, pipe) :: rest) =
        ({ s with consumers := mapStore s.consumers name d }, [],
         some (.registerFailed pipe.driver pipe.name))) ∧
    (∀ c d m, mapLookup s.jobConstructors pipe.driver = some c →
      c.jobsConstruct ("jobs.pipelines." ++ name) = .ok d →
      d.registerRes pipe = none →
      name ∈ s.consume →
      d.runRes pipe = some m →
      serveWalk s ((name, pipe) :: rest) =
        ({ s with consumers := mapStore s.consumers name d }, [],
         some (.runFailed m))) := by
  refine ⟨?_, ?_, ?_, ?_⟩
  · intro h
    simp [serveWalk, h]
  · intro c msg h1 h2
    simp [serveWalk, h1, h2]
  · intro c d m h1 h2 h3
    simp [serveWalk, h1, h2, h3]
  · intro c d m h1 h2 h3 h4 h5
    simp [serveWalk, h1, h2, h3, h4, h5]

theorem c9_serve_walk_first_error_witness :
    serveWalk emptyState [("p1", pplMem)] =
      ((serveWalk emptyState []).1,
       .driverReady "p1" "mem" :: (serveWalk emptyState []).2.1,
       (serveWalk emptyState []).2.2) ∧
    serveWalk ctorFailState [("p1", pplMem), ("p2", pplTwo)] =
      (ctorFailState, [], some (.constructFailed "construct boom")) ∧
    serveWalk regFailState [("p1", pplMem), ("p2", pplTwo)] =
      ({ regFailState with
          consumers := mapStore regFailState.consumers "p1" regFailConsumer },
       [], some (.registerFailed "mem" "p1")) :=
  ⟨(c9_serve_walk_first_error emptyState "p1" pplMem []).1 rfl,
   (c9_serve_walk_first_error ctorFailState "p1" pplMem [("p2", pplTwo)]).2.1
     ctorFailCtor "construct boom"
     (by simp [ctorFailState, emptyState, mapLookup, pplMem]) rfl,
   (c9_serve_walk_first_error regFailState "p1" pplMem [("p2", pplTwo)]).2.2.1
     regFailCtor regFailConsumer "register boom"
     (by simp [regFailState, emptyState, mapLookup, pplMem]) rfl rfl⟩

end JobsPlugin
